import Mathlib

/-!
Verification of the image-generation provider fallback router of
`src/image_generator.py` (module `image_generator`).

Modelling conventions of the shallow embedding:

* Python strings are modelled as lists of characters (`PyStr`); Python
  truthiness of an `Optional[str]` (`None` and `""` are falsy) is `pyTruthy`.
* `time.time()` values (Python floats) are modelled as exact rationals.
* All external effects — environment variables (API keys), the OpenAI
  client call, `requests` HTTP calls and `resp.json()` — are supplied as
  explicit oracle values in environment records, so every embedded function
  is a pure function of its inputs.  An oracle field of type `Except`
  models a call that may raise.
* The module-level `last_request_time` (`defaultdict(float)`, default `0.0`)
  is modelled as a total function `String → ℚ` threaded through the router.
* `str.strip()` is modelled by `pyStrip` over CPython's exact `str.isspace`
  character set (`pyIsSpace`).  Python's `str.isalnum` is Unicode-aware; it
  is modelled by the ASCII classifier `Char.isAlphanum`, which agrees with
  CPython exactly on ASCII text, so every theorem about the base64
  heuristic restricts its input to ASCII characters, the range on which the
  embedding is exact.
-/

/-- Python strings, modelled as lists of characters. -/
abbrev PyStr := List Char

/-- Truthiness of a Python `Optional[str]`: `None` and `""` are falsy. -/
def pyTruthy : Option PyStr → Bool
  | none => false
  | some s => !s.isEmpty

/-- Python `a or b` on optional strings: `a` if truthy, else `b`. -/
def pyOr (a b : Option PyStr) : Option PyStr :=
  if pyTruthy a then a else b

/-- Python `str.isspace` for a single character, i.e. the set of
characters `str.strip()` removes: CPython's Unicode whitespace —
U+0009–U+000D, U+001C–U+001F, space, U+0085, U+00A0, U+1680,
U+2000–U+200A, U+2028, U+2029, U+202F, U+205F and U+3000. -/
def pyIsSpace (c : Char) : Bool :=
  decide ((0x09 ≤ c.toNat ∧ c.toNat ≤ 0x0d) ∨ c.toNat = 0x20 ∨
    (0x1c ≤ c.toNat ∧ c.toNat ≤ 0x1f) ∨ c.toNat = 0x85 ∨ c.toNat = 0xa0 ∨
    c.toNat = 0x1680 ∨ (0x2000 ≤ c.toNat ∧ c.toNat ≤ 0x200a) ∨
    c.toNat = 0x2028 ∨ c.toNat = 0x2029 ∨ c.toNat = 0x202f ∨
    c.toNat = 0x205f ∨ c.toNat = 0x3000)

/-- Python `str.strip()`: drop leading and trailing Python whitespace. -/
def pyStrip (s : PyStr) : PyStr :=
  ((s.dropWhile pyIsSpace).reverse.dropWhile pyIsSpace).reverse

/-- Python `s.startswith(p)` on the list-of-characters model. -/
def startsWithL : PyStr → PyStr → Bool
  | _, [] => true
  | [], _ :: _ => false
  | c :: cs, p :: ps => c == p && startsWithL cs ps

/-- Character class of the source's base64 heuristic, line 37 of
`src/image_generator.py`: `c.isalnum() or c in "+/=\n\r"`.  CPython's
`str.isalnum` accepts all Unicode alphanumerics; it is modelled here by
the ASCII classifier `Char.isAlphanum`, with which it agrees exactly on
ASCII characters.  Theorems about this heuristic therefore carry an
explicit all-ASCII hypothesis confining them to the range on which the
model is exact; beyond ASCII the source accepts characters (such as
`'é'`) that this model does not. -/
def segB64Char (c : Char) : Bool :=
  c.isAlphanum || c == '+' || c == '/' || c == '=' || c == '\n' || c == '\r'

/-- `_ensure_https_or_data_url` (src/image_generator.py, lines 26–39):
the result normalizer.  `raw.strip()` is `pyStrip`, `s[len("http://"):]` is
`List.drop 7`, `s.replace("\n", "")` is a filter removing every newline. -/
def _ensure_https_or_data_url (raw : Option PyStr) : Option PyStr :=
  if !pyTruthy raw then none
  else
    let s := pyStrip (raw.getD [])
    if startsWithL s ("http://".data) then some ("https://".data ++ s.drop 7)
    else if startsWithL s ("https://".data) then some s
    else if startsWithL s ("data:image/".data) then some s
    else if decide (100 < s.length) && (s.take 120).all segB64Char then
      some ("data:image/png;base64,".data ++ s.filter (fun c => c != '\n'))
    else some s

/-- Base64 alphabet as the words of the spec's normalizer rule 4 read:
alphanumerics plus `+`, `/`, `=` (no line-break characters).  On ASCII
characters — the range the rule theorem is stated over — `Char.isAlphanum`
is exactly the letters and digits of the base64 alphabet. -/
def base64AlphabetChar (c : Char) : Bool :=
  c.isAlphanum || c == '+' || c == '/' || c == '='

/-- Spec-side normalizer, written from the words of spec §4.3 / claim C7
(for comparison with `_ensure_https_or_data_url`): empty/null to null,
`http://` rewritten to `https://`, `https://` and `data:image/` returned
as-is, a long bare-base64 string (alphabet checked over a bounded prefix of
the string) wrapped with the payload kept verbatim, anything else returned
unchanged.  The length/window thresholds mirror the source's. -/
def normalize_spec (raw : Option PyStr) : Option PyStr :=
  match raw with
  | none => none
  | some s =>
    if s.isEmpty then none
    else if startsWithL s ("http://".data) then some ("https://".data ++ s.drop 7)
    else if startsWithL s ("https://".data) then some s
    else if startsWithL s ("data:image/".data) then some s
    else if decide (100 < s.length) && (s.take 120).all base64AlphabetChar then
      some ("data:image/png;base64,".data ++ s)
    else some s

instance {ε α : Type} [DecidableEq ε] [DecidableEq α] : DecidableEq (Except ε α)
  | .error a, .error b =>
    if h : a = b then isTrue (by rw [h])
    else isFalse (by intro hh; injection hh with h2; exact h h2)
  | .error _, .ok _ => isFalse (by intro h; cases h)
  | .ok _, .error _ => isFalse (by intro h; cases h)
  | .ok a, .ok b =>
    if h : a = b then isTrue (by rw [h])
    else isFalse (by intro hh; injection hh with h2; exact h h2)

/-- Exception values observable by the router. -/
inductive PyError where
  | badRequestError (msg : String)
  | openAIAPIError (msg : String)
  | runtimeError (msg : String)
  | otherError (msg : String)
deriving DecidableEq, Repr

/-- Segmind JSON body, as far as `generate_with_segmind` reads it:
`data.get("image")` and `data.get("images")`. -/
structure SegmindJson where
  image : Option PyStr
  images : Option (List (Option PyStr))
deriving DecidableEq, Repr

/-- Segmind HTTP response: status, text (for the error log) and the
outcome of `resp.json()` (which may raise). -/
structure SegmindResp where
  status_code : Nat
  text : String
  json : Except String SegmindJson
deriving DecidableEq, Repr

/-- Oracle for the Segmind adapter's external effects: the
`SEGMIND_API_KEY` environment variable, the `_url_to_base64` call on the
identity image (may raise), and the `requests.post` call (may raise). -/
structure SegmindEnv where
  key : Option PyStr
  fetchFace : Except String String
  post : Except String SegmindResp
deriving DecidableEq, Repr

/-- Log events emitted by `generate_with_segmind`, one constructor per
`logger` call site in lines 152–202 of the source. -/
inductive SegLog where
  | called (idImg : Bool)
  | missingKey
  | missingIdentity
  | status (code : Nat)
  | httpError (code : Nat) (body : String)
  | noImage
  | exception
deriving DecidableEq, Repr

/-- Line 195 of the source:
`img_b64 = data.get("image") or (data.get("images") or [None])[0]`. -/
def segmind_pick_image (j : SegmindJson) : Option PyStr :=
  pyOr j.image
    (match j.images with
     | none => none
     | some [] => none
     | some (x :: _) => x)

/-- `generate_with_segmind` (src/image_generator.py, lines 152–202):
returns the adapter's Python value (`Optional[str]`) together with the
trace of log events it emits.  Every exception raised by an oracle call is
caught by the source's outer `except` and turns into `(none, … exception)`. -/
def generate_with_segmind (env : SegmindEnv) (prompt : String)
    (identity_image_url : Option PyStr) : Option PyStr × List SegLog :=
  let called := [SegLog.called (pyTruthy identity_image_url)]
  if !pyTruthy env.key then (none, called ++ [SegLog.missingKey])
  else if !pyTruthy identity_image_url then (none, called ++ [SegLog.missingIdentity])
  else
    match env.fetchFace with
    | .error _ => (none, called ++ [SegLog.exception])
    | .ok _ =>
      match env.post with
      | .error _ => (none, called ++ [SegLog.exception])
      | .ok resp =>
        if resp.status_code ≠ 200 then
          (none, called ++ [SegLog.status resp.status_code,
                            SegLog.httpError resp.status_code (resp.text.take 400)])
        else
          match resp.json with
          | .error _ => (none, called ++ [SegLog.status resp.status_code, SegLog.exception])
          | .ok data =>
            match segmind_pick_image data with
            | none => (none, called ++ [SegLog.status resp.status_code, SegLog.noImage])
            | some img =>
              if img.isEmpty then
                (none, called ++ [SegLog.status resp.status_code, SegLog.noImage])
              else
                (some ("data:image/png;base64,".data ++ img),
                 called ++ [SegLog.status resp.status_code])

/-- Getimg JSON body: `data.get("image_url")` and `data.get("url")`. -/
structure GetimgJson where
  image_url : Option PyStr
  url : Option PyStr
deriving DecidableEq, Repr

/-- Getimg HTTP response. -/
structure GetimgResp where
  status_code : Nat
  text : String
  json : Except String GetimgJson
deriving DecidableEq, Repr

/-- Oracle for the Getimg adapter: the `GETIMG_API_KEY` environment
variable and the `requests.post` call (may raise). -/
structure GetimgEnv where
  key : Option PyStr
  post : Except String GetimgResp
deriving DecidableEq, Repr

/-- `generate_with_getimg` (src/image_generator.py, lines 206–248).
Every oracle exception is caught by the outer `except` and yields `none`. -/
def generate_with_getimg (env : GetimgEnv) (prompt : String)
    (identity_image_url : Option PyStr) : Option PyStr :=
  if !pyTruthy env.key then none
  else if !pyTruthy identity_image_url then none
  else
    match env.post with
    | .error _ => none
    | .ok resp =>
      if resp.status_code ≠ 200 then none
      else
        match resp.json with
        | .error _ => none
        | .ok data => _ensure_https_or_data_url (pyOr data.image_url data.url)

/-- `generate_with_dalle` (src/image_generator.py, lines 124–148).  The
oracle models `client.images.generate`: an exception, or the value of
`resp.data` as a list of per-item `url` fields (`none` for a falsy `resp`).
Exceptions are logged and re-raised unchanged; a missing/empty URL after
normalization raises `RuntimeError("DALL·E returned no URL")`. -/
def generate_with_dalle (api : Except PyError (Option (List (Option PyStr))))
    (prompt : String) : Except PyError PyStr :=
  match api with
  | .error e => .error e
  | .ok resp =>
    let url : Option PyStr :=
      match resp with
      | none => none
      | some [] => none
      | some (u :: _) => u
    match _ensure_https_or_data_url url with
    | none => .error (.runtimeError "DALL·E returned no URL")
    | some s =>
      if s.isEmpty then .error (.runtimeError "DALL·E returned no URL")
      else .ok s

/-- The three providers, in the names of the source functions. -/
inductive Provider where
  | dalle
  | segmind
  | getimg
deriving DecidableEq, Repr

/-- Oracle for one whole `generate_image_from_prompt` call. -/
structure Env where
  dalleApi : Except PyError (Option (List (Option PyStr)))
  segmind : SegmindEnv
  getimg : GetimgEnv
deriving Repr

/-- `RATE_LIMIT_SECONDS` (line 22). -/
def RATE_LIMIT_SECONDS : ℚ := 10

/-- The message of the `RuntimeError` raised on line 65; the source
truncates the remaining wait to a whole number of seconds with `int(...)`
(equal to the floor, the wait being positive in this branch). -/
def rate_limit_message (wait : ℤ) : String :=
  "Rate limit: Please wait " ++ toString wait ++ " seconds."

/-- Result of one `generate_image_from_prompt` call: the returned value or
raised exception, the providers attempted in order, and the updated
`last_request_time` map. -/
structure GenOutput where
  result : Except PyError PyStr
  attempts : List Provider
  state : String → ℚ

/-- `generate_image_from_prompt` (src/image_generator.py, lines 50–120).
`st` is the `last_request_time` map before the call and `now` the value of
`time.time()`.  The attempt list records each provider function invoked,
in invocation order. -/
def generate_image_from_prompt (env : Env) (st : String → ℚ) (now : ℚ)
    (prompt : String) (identity_image_url : Option PyStr)
    (user_id : String) (high_quality : Bool) : GenOutput :=
  if now - st user_id < RATE_LIMIT_SECONDS then
    { result := Except.error (PyError.runtimeError
        (rate_limit_message ⌊RATE_LIMIT_SECONDS - (now - st user_id)⌋)),
      attempts := [], state := st }
  else
    let st' : String → ℚ := fun u => if u = user_id then now else st u
    if pyTruthy identity_image_url || high_quality then
      let seg := (generate_with_segmind env.segmind prompt identity_image_url).1
      if pyTruthy seg then
        { result := Except.ok (seg.getD []), attempts := [Provider.segmind], state := st' }
      else
        let gi := generate_with_getimg env.getimg prompt identity_image_url
        if pyTruthy gi then
          { result := Except.ok (gi.getD []),
            attempts := [Provider.segmind, Provider.getimg], state := st' }
        else
          { result := generate_with_dalle env.dalleApi prompt,
            attempts := [Provider.segmind, Provider.getimg, Provider.dalle], state := st' }
    else
      match generate_with_dalle env.dalleApi prompt with
      | .ok url =>
        { result := Except.ok url, attempts := [Provider.dalle], state := st' }
      | .error _ =>
        let seg := (generate_with_segmind env.segmind prompt identity_image_url).1
        if pyTruthy seg then
          { result := Except.ok (seg.getD []),
            attempts := [Provider.dalle, Provider.segmind], state := st' }
        else
          let gi := generate_with_getimg env.getimg prompt identity_image_url
          if pyTruthy gi then
            { result := Except.ok (gi.getD []),
              attempts := [Provider.dalle, Provider.segmind, Provider.getimg], state := st' }
          else
            { result := Except.error (PyError.runtimeError
                "All providers failed (DALL·E, Segmind, Getimg)."),
              attempts := [Provider.dalle, Provider.segmind, Provider.getimg], state := st' }

/-! Concrete oracle values used by witnesses and counterexamples. -/

/-- A 101-character bare-base64-looking payload with an embedded newline. -/
def c7raw : PyStr := List.replicate 50 'A' ++ '\n' :: List.replicate 50 'A'

/-- Oracle where DALL·E succeeds and the other providers are unconfigured. -/
def envDalleOk : Env :=
  { dalleApi := Except.ok (some [some ("https://img.example/a.png".data)])
  , segmind := { key := none, fetchFace := Except.error "no call", post := Except.error "no call" }
  , getimg := { key := none, post := Except.error "no call" } }

/-- Oracle where Segmind succeeds and DALL·E is down. -/
def envSegOk : Env :=
  { dalleApi := Except.error (PyError.openAIAPIError "connection error")
  , segmind :=
      { key := some ("sk".data)
      , fetchFace := Except.ok "ZmFjZQ=="
      , post := Except.ok
          { status_code := 200, text := "ok"
          , json := Except.ok { image := some ("SU1H".data), images := none } } }
  , getimg := { key := none, post := Except.error "no call" } }

/-- Oracle where every provider yields no usable result: the DALL·E call
returns an empty data list (normalizing to no URL) and the other two
providers have no API key configured. -/
def envAllFail : Env :=
  { dalleApi := Except.ok (some [])
  , segmind := { key := none, fetchFace := Except.error "no call", post := Except.error "no call" }
  , getimg := { key := none, post := Except.error "no call" } }

/-- Segmind oracle answering HTTP 500. -/
def seg500 : SegmindEnv :=
  { key := some ("sk".data)
  , fetchFace := Except.ok "ZmFjZQ=="
  , post := Except.ok { status_code := 500, text := "boom", json := Except.error "no json" } }

/-- Segmind oracle answering HTTP 200 with no image field in the body. -/
def seg200NoImage : SegmindEnv :=
  { key := some ("sk".data)
  , fetchFace := Except.ok "ZmFjZQ=="
  , post := Except.ok
      { status_code := 200, text := "ok"
      , json := Except.ok { image := none, images := none } } }

/-! Helper lemmas. -/

theorem startsWithL_iff (p s : PyStr) : startsWithL s p = true ↔ ∃ t, s = p ++ t := by
  induction p generalizing s with
  | nil => simp [startsWithL]
  | cons c cs ih =>
    cases s with
    | nil => simp [startsWithL]
    | cons a as =>
      simp only [startsWithL, Bool.and_eq_true, beq_iff_eq, ih, List.cons_append,
        List.cons.injEq]
      constructor
      · rintro ⟨rfl, t, rfl⟩
        exact ⟨t, rfl, rfl⟩
      · rintro ⟨t, rfl, rfl⟩
        exact ⟨rfl, t, rfl⟩

theorem all_congr_on (l : PyStr) (p q : Char → Bool) (h : ∀ c ∈ l, p c = q c) :
    l.all p = l.all q := by
  induction l with
  | nil => rfl
  | cons c cs ih =>
    simp only [List.all_cons, h c (List.mem_cons_self c cs),
      ih (fun x hx => h x (List.mem_cons_of_mem c hx))]

theorem startsWith_self_append (p t : PyStr) : startsWithL (p ++ t) p = true := by
  induction p with
  | nil => simp [startsWithL]
  | cons c cs ih => simp [startsWithL, ih]

theorem https_not_http (t : PyStr) :
    startsWithL (['h', 't', 't', 'p', 's', ':', '/', '/'] ++ t)
      ['h', 't', 't', 'p', ':', '/', '/'] = false := rfl

theorem dataimg_not_http (t : PyStr) :
    startsWithL (['d', 'a', 't', 'a', ':', 'i', 'm', 'a', 'g', 'e', '/'] ++ t)
      ['h', 't', 't', 'p', ':', '/', '/'] = false := rfl

theorem dataimg_not_https (t : PyStr) :
    startsWithL (['d', 'a', 't', 'a', ':', 'i', 'm', 'a', 'g', 'e', '/'] ++ t)
      ['h', 't', 't', 'p', 's', ':', '/', '/'] = false := rfl

theorem segmind_no_identity (senv : SegmindEnv) (prompt : String) :
    (generate_with_segmind senv prompt none).1 = none := by
  have hn : pyTruthy (none : Option PyStr) = false := rfl
  by_cases h : pyTruthy senv.key = true
  · simp [generate_with_segmind, h, hn]
  · have h' : pyTruthy senv.key = false := by simpa using h
    simp [generate_with_segmind, h', hn]

theorem getimg_no_identity (genv : GetimgEnv) (prompt : String) :
    generate_with_getimg genv prompt none = none := by
  have hn : pyTruthy (none : Option PyStr) = false := rfl
  by_cases h : pyTruthy genv.key = true
  · simp [generate_with_getimg, h, hn]
  · have h' : pyTruthy genv.key = false := by simpa using h
    simp [generate_with_getimg, h', hn]

theorem gen_ratelimited (env : Env) (st : String → ℚ) (now : ℚ) (prompt : String)
    (i : Option PyStr) (u : String) (hq : Bool)
    (hrate : now - st u < RATE_LIMIT_SECONDS) :
    generate_image_from_prompt env st now prompt i u hq =
      { result := Except.error (PyError.runtimeError
          (rate_limit_message ⌊RATE_LIMIT_SECONDS - (now - st u)⌋)),
        attempts := [], state := st } := by
  simp [generate_image_from_prompt, if_pos hrate]

theorem state_after_pass (env : Env) (st : String → ℚ) (now : ℚ) (prompt : String)
    (i : Option PyStr) (u : String) (hq : Bool)
    (hrate : ¬ now - st u < RATE_LIMIT_SECONDS) :
    (generate_image_from_prompt env st now prompt i u hq).state
      = fun v => if v = u then now else st v := by
  simp only [generate_image_from_prompt, if_neg hrate]
  split
  all_goals try split
  all_goals try split
  all_goals try split
  all_goals rfl

theorem attempts_after_pass_ne_nil (env : Env) (st : String → ℚ) (now : ℚ)
    (prompt : String) (i : Option PyStr) (u : String) (hq : Bool)
    (hrate : ¬ now - st u < RATE_LIMIT_SECONDS) :
    (generate_image_from_prompt env st now prompt i u hq).attempts ≠ [] := by
  simp only [generate_image_from_prompt, if_neg hrate]
  split
  all_goals try split
  all_goals try split
  all_goals try split
  all_goals simp

theorem gen_default_dalle_ok (env : Env) (st : String → ℚ) (now : ℚ) (prompt : String)
    (i : Option PyStr) (u : String) (hq : Bool)
    (hrate : ¬ now - st u < RATE_LIMIT_SECONDS)
    (hpath : (pyTruthy i || hq) = false)
    (url : PyStr) (hd : generate_with_dalle env.dalleApi prompt = Except.ok url) :
    generate_image_from_prompt env st now prompt i u hq =
      { result := Except.ok url, attempts := [Provider.dalle],
        state := fun v => if v = u then now else st v } := by
  simp [generate_image_from_prompt, if_neg hrate, hpath, hd]

theorem gen_default_all_fail (env : Env) (st : String → ℚ) (now : ℚ) (prompt : String)
    (i : Option PyStr) (u : String) (hq : Bool)
    (hrate : ¬ now - st u < RATE_LIMIT_SECONDS)
    (hpath : (pyTruthy i || hq) = false)
    (hseg : pyTruthy (generate_with_segmind env.segmind prompt i).1 = false)
    (hgi : pyTruthy (generate_with_getimg env.getimg prompt i) = false)
    (e : PyError) (hd : generate_with_dalle env.dalleApi prompt = Except.error e) :
    generate_image_from_prompt env st now prompt i u hq =
      { result := Except.error (PyError.runtimeError
          "All providers failed (DALL·E, Segmind, Getimg)."),
        attempts := [Provider.dalle, Provider.segmind, Provider.getimg],
        state := fun v => if v = u then now else st v } := by
  simp [generate_image_from_prompt, if_neg hrate, hpath, hseg, hgi, hd]

theorem gen_identity_seg_ok (env : Env) (st : String → ℚ) (now : ℚ) (prompt : String)
    (i : Option PyStr) (u : String) (hq : Bool)
    (hrate : ¬ now - st u < RATE_LIMIT_SECONDS)
    (hpath : (pyTruthy i || hq) = true)
    (hseg : pyTruthy (generate_with_segmind env.segmind prompt i).1 = true) :
    generate_image_from_prompt env st now prompt i u hq =
      { result := Except.ok ((generate_with_segmind env.segmind prompt i).1.getD []),
        attempts := [Provider.segmind],
        state := fun v => if v = u then now else st v } := by
  simp [generate_image_from_prompt, if_neg hrate, hpath, hseg]

theorem gen_identity_getimg_ok (env : Env) (st : String → ℚ) (now : ℚ) (prompt : String)
    (i : Option PyStr) (u : String) (hq : Bool)
    (hrate : ¬ now - st u < RATE_LIMIT_SECONDS)
    (hpath : (pyTruthy i || hq) = true)
    (hseg : pyTruthy (generate_with_segmind env.segmind prompt i).1 = false)
    (hgi : pyTruthy (generate_with_getimg env.getimg prompt i) = true) :
    generate_image_from_prompt env st now prompt i u hq =
      { result := Except.ok ((generate_with_getimg env.getimg prompt i).getD []),
        attempts := [Provider.segmind, Provider.getimg],
        state := fun v => if v = u then now else st v } := by
  simp [generate_image_from_prompt, if_neg hrate, hpath, hseg, hgi]

theorem gen_identity_fallthrough (env : Env) (st : String → ℚ) (now : ℚ) (prompt : String)
    (i : Option PyStr) (u : String) (hq : Bool)
    (hrate : ¬ now - st u < RATE_LIMIT_SECONDS)
    (hpath : (pyTruthy i || hq) = true)
    (hseg : pyTruthy (generate_with_segmind env.segmind prompt i).1 = false)
    (hgi : pyTruthy (generate_with_getimg env.getimg prompt i) = false) :
    generate_image_from_prompt env st now prompt i u hq =
      { result := generate_with_dalle env.dalleApi prompt,
        attempts := [Provider.segmind, Provider.getimg, Provider.dalle],
        state := fun v => if v = u then now else st v } := by
  simp [generate_image_from_prompt, if_neg hrate, hpath, hseg, hgi]

/-! Claims C7 and C9: the result normalizer. -/

/-- Claim C7 (amended): on inputs of ASCII characters with no CR/LF and no
leading or trailing Python whitespace, `_ensure_https_or_data_url` applies
exactly the claimed rules (null for empty, `http://` rewritten to
`https://`, canonical forms returned as-is, long base64-alphabet strings
checked over a bounded prefix wrapped as a `data:image/png` payload,
anything else returned unchanged) — stated as agreement with
`normalize_spec`, the rule list written from the claim's words.  The
hypotheses confine the statement to the inputs the claim survives on and
on which the embedding agrees with CPython exactly: the source deviates
from the claimed rules by accepting CR/LF in the heuristic's alphabet and
deleting newlines from the wrapped payload (the counterexample), by
stripping surrounding whitespace first, and — `str.isalnum` being
Unicode-aware — by also wrapping long strings of non-ASCII alphanumerics
such as `'é'`, which the claim's base64 alphabet excludes. -/
theorem C7_normalizer_rules (raw : PyStr)
    (hascii : ∀ c ∈ raw, c.toNat ≤ 0x7f)
    (hstrip : pyStrip raw = raw)
    (hnl : ∀ c ∈ raw, c ≠ '\n' ∧ c ≠ '\r') :
    _ensure_https_or_data_url (some raw) = normalize_spec (some raw) ∧
    _ensure_https_or_data_url none = normalize_spec none := by
  constructor
  · have hall : (raw.take 120).all segB64Char = (raw.take 120).all base64AlphabetChar := by
      apply all_congr_on
      intro c hc
      have hcraw : c ∈ raw := List.take_subset _ _ hc
      have h1 : (c == '\n') = false := beq_eq_false_iff_ne.mpr (hnl c hcraw).1
      have h2 : (c == '\r') = false := beq_eq_false_iff_ne.mpr (hnl c hcraw).2
      simp [segB64Char, base64AlphabetChar, h1, h2]
    have hfil : raw.filter (fun c => c != '\n') = raw := by
      apply List.filter_eq_self.mpr
      intro c hc
      simpa using (hnl c hc).1
    cases raw with
    | nil => rfl
    | cons a as =>
      simp only [_ensure_https_or_data_url, normalize_spec, pyTruthy, Option.getD,
        hstrip, hall, hfil]
      simp
  · rfl

/-- Claim C7, counterexample: a 101-character string of `A`s with one
embedded newline.  By the claim's rules (newline outside the base64
alphabet) it would be returned unchanged, but the source wraps it as an
inline image and deletes the newline from the payload. -/
theorem C7_counterexample :
    normalize_spec (some c7raw) = some c7raw ∧
    _ensure_https_or_data_url (some c7raw) =
      some ("data:image/png;base64,".data ++ List.replicate 100 'A') ∧
    _ensure_https_or_data_url (some c7raw) ≠ some c7raw := by
  refine ⟨by decide, by decide, by decide⟩

/-- Claim C7, witness: the amended rule theorem applied to the concrete
input `http://img.example/pic.png`, whose scheme the normalizer rewrites. -/
theorem C7_witness :
    (∀ c ∈ ("http://img.example/pic.png".data), c.toNat ≤ 0x7f) ∧
    pyStrip ("http://img.example/pic.png".data) = "http://img.example/pic.png".data ∧
    (∀ c ∈ ("http://img.example/pic.png".data), c ≠ '\n' ∧ c ≠ '\r') ∧
    (_ensure_https_or_data_url (some ("http://img.example/pic.png".data)) =
        normalize_spec (some ("http://img.example/pic.png".data)) ∧
     _ensure_https_or_data_url none = normalize_spec none) :=
  ⟨by decide, by decide, by decide,
   C7_normalizer_rules _ (by decide) (by decide) (by decide)⟩

/-- Claim C9 (amended): `_ensure_https_or_data_url` applied to a trimmed
string — one carrying no leading or trailing Python whitespace, `pyStrip`
modelling `str.strip()` over CPython's exact whitespace set — starting
with `https://` or `data:image/` returns it unchanged, so re-normalizing
is the identity there.  The source strips surrounding whitespace first, so
an untrimmed canonical string (a trailing space, vertical tab, or any
other `str.isspace` character) is returned changed (the counterexample). -/
theorem C9_normalize_idempotent_on_canonical (s : PyStr)
    (hstrip : pyStrip s = s)
    (hcanon : startsWithL s ("https://".data) = true ∨
      startsWithL s ("data:image/".data) = true) :
    _ensure_https_or_data_url (some s) = some s ∧
    _ensure_https_or_data_url (_ensure_https_or_data_url (some s)) =
      _ensure_https_or_data_url (some s) := by
  have h1 : _ensure_https_or_data_url (some s) = some s := by
    rcases hcanon with h | h
    · obtain ⟨t, rfl⟩ := (startsWithL_iff _ _).mp h
      have e0 : pyTruthy (some ("https://".data ++ t)) = true := rfl
      simp only [_ensure_https_or_data_url, e0, Bool.not_true, Bool.false_eq_true,
        if_false, Option.getD, hstrip, https_not_http, startsWith_self_append,
        Bool.true_eq_false, if_true]
    · obtain ⟨t, rfl⟩ := (startsWithL_iff _ _).mp h
      have e0 : pyTruthy (some ("data:image/".data ++ t)) = true := rfl
      simp only [_ensure_https_or_data_url, e0, Bool.not_true, Bool.false_eq_true,
        if_false, Option.getD, hstrip, dataimg_not_http, dataimg_not_https,
        startsWith_self_append, Bool.true_eq_false, if_true]
  refine ⟨h1, ?_⟩
  rw [h1]
  exact h1

/-- Claim C9, counterexample: `"https://x "` starts with `https://`, yet the
normalizer returns it with the trailing space stripped, not unchanged. -/
theorem C9_counterexample :
    startsWithL ("https://x ".data) ("https://".data) = true ∧
    _ensure_https_or_data_url (some ("https://x ".data)) = some ("https://x".data) ∧
    some ("https://x".data) ≠ some ("https://x ".data) := by
  refine ⟨by decide, by decide, by decide⟩

/-- Claim C9, witness: the amended theorem applied to the trimmed canonical
string `https://img.example/a.png`. -/
theorem C9_witness :
    pyStrip ("https://img.example/a.png".data) = "https://img.example/a.png".data ∧
    startsWithL ("https://img.example/a.png".data) ("https://".data) = true ∧
    (_ensure_https_or_data_url (some ("https://img.example/a.png".data)) =
        some ("https://img.example/a.png".data) ∧
     _ensure_https_or_data_url
        (_ensure_https_or_data_url (some ("https://img.example/a.png".data))) =
       _ensure_https_or_data_url (some ("https://img.example/a.png".data))) :=
  ⟨by decide, by decide,
   C9_normalize_idempotent_on_canonical _ (by decide) (Or.inl (by decide))⟩

/-! Claims C1 and C3: provider ordering. -/

/-- Claim C1 (amended): for every request whose identity image is present
and non-empty, or whose high-quality flag is set, and which passes the
rate limit, the providers are attempted in exactly the order Segmind
(Identity-Preserving), Getimg (ControlNet-Style), DALL·E
(Primary-Diffusion), stopping at the first attempt that yields a usable
(truthy) result; no provider is attempted after an earlier usable result.
The amendment is forced by Python truthiness: an identity image that is
present but equal to the empty string routes to the default order (see the
counterexample). -/
theorem C1_identity_order (env : Env) (st : String → ℚ) (now : ℚ)
    (prompt : String) (identity_image_url : Option PyStr) (user_id : String)
    (high_quality : Bool)
    (hrate : ¬ now - st user_id < RATE_LIMIT_SECONDS)
    (hpath : (pyTruthy identity_image_url || high_quality) = true) :
    (pyTruthy (generate_with_segmind env.segmind prompt identity_image_url).1 = true →
      (generate_image_from_prompt env st now prompt identity_image_url user_id high_quality).attempts
          = [Provider.segmind] ∧
      (generate_image_from_prompt env st now prompt identity_image_url user_id high_quality).result
          = Except.ok ((generate_with_segmind env.segmind prompt identity_image_url).1.getD [])) ∧
    (pyTruthy (generate_with_segmind env.segmind prompt identity_image_url).1 = false →
      pyTruthy (generate_with_getimg env.getimg prompt identity_image_url) = true →
      (generate_image_from_prompt env st now prompt identity_image_url user_id high_quality).attempts
          = [Provider.segmind, Provider.getimg] ∧
      (generate_image_from_prompt env st now prompt identity_image_url user_id high_quality).result
          = Except.ok ((generate_with_getimg env.getimg prompt identity_image_url).getD [])) ∧
    (pyTruthy (generate_with_segmind env.segmind prompt identity_image_url).1 = false →
      pyTruthy (generate_with_getimg env.getimg prompt identity_image_url) = false →
      (generate_image_from_prompt env st now prompt identity_image_url user_id high_quality).attempts
          = [Provider.segmind, Provider.getimg, Provider.dalle] ∧
      (generate_image_from_prompt env st now prompt identity_image_url user_id high_quality).result
          = generate_with_dalle env.dalleApi prompt) := by
  refine ⟨fun hseg => ?_, fun hseg hgi => ?_, fun hseg hgi => ?_⟩
  · rw [gen_identity_seg_ok env st now prompt identity_image_url user_id high_quality
      hrate hpath hseg]
    exact ⟨rfl, rfl⟩
  · rw [gen_identity_getimg_ok env st now prompt identity_image_url user_id high_quality
      hrate hpath hseg hgi]
    exact ⟨rfl, rfl⟩
  · rw [gen_identity_fallthrough env st now prompt identity_image_url user_id high_quality
      hrate hpath hseg hgi]
    exact ⟨rfl, rfl⟩

/-- Claim C1, counterexample: the request `identity_image = some ""`,
`high_quality = false` has its identity image present, yet the router takes
the default path and attempts DALL·E first, because the Python truthiness
test `if identity_image_url or high_quality` treats `""` as absent. -/
theorem C1_counterexample :
    some ([] : List Char) ≠ (none : Option PyStr) ∧
    (generate_image_from_prompt envDalleOk (fun _ => 0) 100 "p" (some []) "u" false).attempts.head?
        = some Provider.dalle ∧
    some Provider.dalle ≠ some Provider.segmind := by
  have h := gen_default_dalle_ok envDalleOk (fun _ => 0) 100 "p" (some []) "u" false
    (by norm_num [RATE_LIMIT_SECONDS]) (by decide)
    ("https://img.example/a.png".data) (by decide)
  rw [h]
  exact ⟨by decide, rfl, by decide⟩

/-- Claim C1, witness: a request with a non-empty identity image and a
Segmind oracle that succeeds stops after the single attempt `[segmind]`. -/
theorem C1_witness :
    (¬ (100:ℚ) - 0 < RATE_LIMIT_SECONDS) ∧
    (pyTruthy (some ("https://face.example/f.png".data)) || true) = true ∧
    (generate_image_from_prompt envSegOk (fun _ => 0) 100 "p"
        (some ("https://face.example/f.png".data)) "u" true).attempts = [Provider.segmind] ∧
    (generate_image_from_prompt envSegOk (fun _ => 0) 100 "p"
        (some ("https://face.example/f.png".data)) "u" true).result
      = Except.ok ((generate_with_segmind envSegOk.segmind "p"
          (some ("https://face.example/f.png".data))).1.getD []) := by
  have hrate : ¬ (100:ℚ) - 0 < RATE_LIMIT_SECONDS := by norm_num [RATE_LIMIT_SECONDS]
  exact ⟨hrate, by decide,
    (C1_identity_order envSegOk (fun _ => 0) 100 "p"
      (some ("https://face.example/f.png".data)) "u" true hrate (by decide)).1 (by decide)⟩

/-- Claim C3: for every request with no identity image and
`high_quality = false` that passes the rate limit, the providers are
attempted in exactly the order DALL·E (Primary-Diffusion), Segmind
(Identity-Preserving), Getimg (ControlNet-Style), stopping at the first
attempt that yields a usable result: a DALL·E success ends the sequence at
`[dalle]` with that result, and a DALL·E failure is followed by Segmind and
Getimg in order (both without a usable result, the identity image being
absent), the call failing after `[dalle, segmind, getimg]`. -/
theorem C3_default_order (env : Env) (st : String → ℚ) (now : ℚ)
    (prompt : String) (user_id : String)
    (hrate : ¬ now - st user_id < RATE_LIMIT_SECONDS) :
    (∀ url, generate_with_dalle env.dalleApi prompt = Except.ok url →
      (generate_image_from_prompt env st now prompt none user_id false).attempts
          = [Provider.dalle] ∧
      (generate_image_from_prompt env st now prompt none user_id false).result
          = Except.ok url) ∧
    (∀ e, generate_with_dalle env.dalleApi prompt = Except.error e →
      (generate_image_from_prompt env st now prompt none user_id false).attempts
          = [Provider.dalle, Provider.segmind, Provider.getimg] ∧
      (generate_image_from_prompt env st now prompt none user_id false).result
          = Except.error (PyError.runtimeError
              "All providers failed (DALL·E, Segmind, Getimg).")) := by
  constructor
  · intro url hd
    rw [gen_default_dalle_ok env st now prompt none user_id false hrate (by decide) url hd]
    exact ⟨rfl, rfl⟩
  · intro e hd
    rw [gen_default_all_fail env st now prompt none user_id false hrate (by decide)
      (by rw [segmind_no_identity]; rfl) (by rw [getimg_no_identity]; rfl) e hd]
    exact ⟨rfl, rfl⟩

/-- Claim C3, witness: the spec's scenario — prompt "a red bicycle", no
identity image, DALL·E returning `https://img.example/a.png` — stops at
`[dalle]` with that URL and invokes no fallback. -/
theorem C3_witness :
    (¬ (100:ℚ) - 0 < RATE_LIMIT_SECONDS) ∧
    (generate_image_from_prompt envDalleOk (fun _ => 0) 100 "a red bicycle" none "u" false).attempts
        = [Provider.dalle] ∧
    (generate_image_from_prompt envDalleOk (fun _ => 0) 100 "a red bicycle" none "u" false).result
        = Except.ok ("https://img.example/a.png".data) := by
  have hrate : ¬ (100:ℚ) - 0 < RATE_LIMIT_SECONDS := by norm_num [RATE_LIMIT_SECONDS]
  exact ⟨hrate, (C3_default_order envDalleOk (fun _ => 0) 100 "a red bicycle" "u" hrate).1
    ("https://img.example/a.png".data) (by decide)⟩

/-! Claims C2, C4 and C5: total failure, rate limiting, precondition fallthrough. -/

/-- Claim C2 (amended): when every adapter yields no usable result, the
router fails with the `AllProvidersFailed` error naming DALL·E, Segmind
and Getimg on the default order; on the identity-preferring order it
instead propagates the final DALL·E call's own error after attempting all
three providers, because the last fallback on that path is returned
without a catch (source line 94). -/
theorem C2_total_failure (env : Env) (st : String → ℚ) (now : ℚ) (prompt : String)
    (identity_image_url : Option PyStr) (user_id : String) (high_quality : Bool)
    (hrate : ¬ now - st user_id < RATE_LIMIT_SECONDS)
    (hseg : pyTruthy (generate_with_segmind env.segmind prompt identity_image_url).1 = false)
    (hgi : pyTruthy (generate_with_getimg env.getimg prompt identity_image_url) = false)
    (e : PyError) (hd : generate_with_dalle env.dalleApi prompt = Except.error e) :
    ((pyTruthy identity_image_url || high_quality) = false →
      (generate_image_from_prompt env st now prompt identity_image_url user_id high_quality).result
          = Except.error (PyError.runtimeError
              "All providers failed (DALL·E, Segmind, Getimg).") ∧
      (generate_image_from_prompt env st now prompt identity_image_url user_id high_quality).attempts
          = [Provider.dalle, Provider.segmind, Provider.getimg]) ∧
    ((pyTruthy identity_image_url || high_quality) = true →
      (generate_image_from_prompt env st now prompt identity_image_url user_id high_quality).result
          = Except.error e ∧
      (generate_image_from_prompt env st now prompt identity_image_url user_id high_quality).attempts
          = [Provider.segmind, Provider.getimg, Provider.dalle]) := by
  constructor
  · intro hpath
    rw [gen_default_all_fail env st now prompt identity_image_url user_id high_quality
      hrate hpath hseg hgi e hd]
    exact ⟨rfl, rfl⟩
  · intro hpath
    rw [gen_identity_fallthrough env st now prompt identity_image_url user_id high_quality
      hrate hpath hseg hgi]
    exact ⟨by rw [show GenOutput.result _ = generate_with_dalle env.dalleApi prompt from rfl, hd],
      rfl⟩

/-- Claim C2, counterexample: on the identity-preferring order with every
adapter failing (no Segmind/Getimg keys, DALL·E returning an empty data
list), the call raises DALL·E's own `RuntimeError("DALL·E returned no
URL")`, not the `AllProvidersFailed` error the claim requires. -/
theorem C2_counterexample :
    (generate_image_from_prompt envAllFail (fun _ => 0) 100 "p"
        (some ("https://f.example/i.png".data)) "u" false).result
      = Except.error (PyError.runtimeError "DALL·E returned no URL") ∧
    (generate_image_from_prompt envAllFail (fun _ => 0) 100 "p"
        (some ("https://f.example/i.png".data)) "u" false).result
      ≠ Except.error (PyError.runtimeError
          "All providers failed (DALL·E, Segmind, Getimg).") := by
  have h := gen_identity_fallthrough envAllFail (fun _ => 0) 100 "p"
    (some ("https://f.example/i.png".data)) "u" false
    (by norm_num [RATE_LIMIT_SECONDS]) (by decide) (by decide) (by decide)
  rw [h]
  exact ⟨by decide, by decide⟩

/-- Claim C2, witness: the amended theorem at a concrete all-failing oracle
on the default order yields the `AllProvidersFailed` error after attempting
all three providers. -/
theorem C2_witness :
    (¬ (100:ℚ) - 0 < RATE_LIMIT_SECONDS) ∧
    (pyTruthy (generate_with_segmind envAllFail.segmind "p" none).1 = false) ∧
    (pyTruthy (generate_with_getimg envAllFail.getimg "p" none) = false) ∧
    (generate_with_dalle envAllFail.dalleApi "p"
        = Except.error (PyError.runtimeError "DALL·E returned no URL")) ∧
    (generate_image_from_prompt envAllFail (fun _ => 0) 100 "p" none "u" false).result
        = Except.error (PyError.runtimeError
            "All providers failed (DALL·E, Segmind, Getimg).") ∧
    (generate_image_from_prompt envAllFail (fun _ => 0) 100 "p" none "u" false).attempts
        = [Provider.dalle, Provider.segmind, Provider.getimg] := by
  have hrate : ¬ (100:ℚ) - 0 < RATE_LIMIT_SECONDS := by norm_num [RATE_LIMIT_SECONDS]
  exact ⟨hrate, by decide, by decide, by decide,
    (C2_total_failure envAllFail (fun _ => 0) 100 "p" none "u" false hrate
      (by decide) (by decide) (PyError.runtimeError "DALL·E returned no URL")
      (by decide)).1 (by decide)⟩

/-- Claim C4: a `generate` call for the same requester made less than 10
seconds after the previous accepted call fails with the rate-limit error
and attempts no provider; a call made once the window has elapsed passes
the check and proceeds to provider attempts. -/
theorem C4_rate_limit_window (env₁ env₂ env₃ : Env) (st : String → ℚ) (u : String)
    (t₀ t₁ t₂ : ℚ) (p₁ p₂ p₃ : String) (i₁ i₂ i₃ : Option PyStr) (hq₁ hq₂ hq₃ : Bool)
    (h₀ : ¬ t₀ - st u < RATE_LIMIT_SECONDS)
    (h₁ : t₁ - t₀ < RATE_LIMIT_SECONDS)
    (h₂ : ¬ t₂ - t₀ < RATE_LIMIT_SECONDS) :
    (generate_image_from_prompt env₂
        (generate_image_from_prompt env₁ st t₀ p₁ i₁ u hq₁).state t₁ p₂ i₂ u hq₂).result
      = Except.error (PyError.runtimeError
          (rate_limit_message ⌊RATE_LIMIT_SECONDS - (t₁ - t₀)⌋)) ∧
    (generate_image_from_prompt env₂
        (generate_image_from_prompt env₁ st t₀ p₁ i₁ u hq₁).state t₁ p₂ i₂ u hq₂).attempts
      = [] ∧
    (generate_image_from_prompt env₃
        (generate_image_from_prompt env₁ st t₀ p₁ i₁ u hq₁).state t₂ p₃ i₃ u hq₃).attempts
      ≠ [] := by
  have hsu : (generate_image_from_prompt env₁ st t₀ p₁ i₁ u hq₁).state u = t₀ := by
    rw [state_after_pass env₁ st t₀ p₁ i₁ u hq₁ h₀]
    simp
  have h₁' : t₁ - (generate_image_from_prompt env₁ st t₀ p₁ i₁ u hq₁).state u
      < RATE_LIMIT_SECONDS := by rw [hsu]; exact h₁
  have h₂' : ¬ t₂ - (generate_image_from_prompt env₁ st t₀ p₁ i₁ u hq₁).state u
      < RATE_LIMIT_SECONDS := by rw [hsu]; exact h₂
  refine ⟨?_, ?_, attempts_after_pass_ne_nil env₃ _ t₂ p₃ i₃ u hq₃ h₂'⟩
  · rw [gen_ratelimited env₂ _ t₁ p₂ i₂ u hq₂ h₁', hsu]
  · rw [gen_ratelimited env₂ _ t₁ p₂ i₂ u hq₂ h₁']

/-- Claim C4, witness: accepted call at t=100, second call at t=105
rejected with a 5-second wait and no attempts, third call at t=111
proceeding to provider attempts. -/
theorem C4_witness :
    (¬ (100:ℚ) - 0 < RATE_LIMIT_SECONDS) ∧
    ((105:ℚ) - 100 < RATE_LIMIT_SECONDS) ∧
    (¬ (111:ℚ) - 100 < RATE_LIMIT_SECONDS) ∧
    ((generate_image_from_prompt envDalleOk
        (generate_image_from_prompt envDalleOk (fun _ => 0) 100 "p" none "u" false).state
        105 "p" none "u" false).result
      = Except.error (PyError.runtimeError
          (rate_limit_message ⌊RATE_LIMIT_SECONDS - ((105:ℚ) - 100)⌋)) ∧
    (generate_image_from_prompt envDalleOk
        (generate_image_from_prompt envDalleOk (fun _ => 0) 100 "p" none "u" false).state
        105 "p" none "u" false).attempts = [] ∧
    (generate_image_from_prompt envDalleOk
        (generate_image_from_prompt envDalleOk (fun _ => 0) 100 "p" none "u" false).state
        111 "p" none "u" false).attempts ≠ []) := by
  have a₀ : ¬ (100:ℚ) - 0 < RATE_LIMIT_SECONDS := by norm_num [RATE_LIMIT_SECONDS]
  have a₁ : (105:ℚ) - 100 < RATE_LIMIT_SECONDS := by norm_num [RATE_LIMIT_SECONDS]
  have a₂ : ¬ (111:ℚ) - 100 < RATE_LIMIT_SECONDS := by norm_num [RATE_LIMIT_SECONDS]
  exact ⟨a₀, a₁, a₂,
    C4_rate_limit_window envDalleOk envDalleOk envDalleOk (fun _ => 0) "u"
      100 105 111 "p" "p" "p" none none none false false false a₀ a₁ a₂⟩

/-- Claim C5: with no identity image and `high_quality = true`, the
Identity-Preserving (Segmind) and ControlNet-Style (Getimg) adapters both
return no result — for any oracle, covering the missing-image and
missing-key preconditions, and never by raising — and the router falls
through to DALL·E and returns its successful result without raising. -/
theorem C5_precondition_fallthrough (env : Env) (st : String → ℚ) (now : ℚ)
    (prompt : String) (user_id : String)
    (hrate : ¬ now - st user_id < RATE_LIMIT_SECONDS)
    (url : PyStr) (hd : generate_with_dalle env.dalleApi prompt = Except.ok url) :
    (∀ (senv : SegmindEnv) (p : String), (generate_with_segmind senv p none).1 = none) ∧
    (∀ (genv : GetimgEnv) (p : String), generate_with_getimg genv p none = none) ∧
    (generate_image_from_prompt env st now prompt none user_id true).attempts
        = [Provider.segmind, Provider.getimg, Provider.dalle] ∧
    (generate_image_from_prompt env st now prompt none user_id true).result
        = Except.ok url := by
  have h := gen_identity_fallthrough env st now prompt none user_id true hrate (by decide)
    (by rw [segmind_no_identity]; rfl) (by rw [getimg_no_identity]; rfl)
  refine ⟨fun senv p => segmind_no_identity senv p, fun genv p => getimg_no_identity genv p,
    ?_, ?_⟩
  · rw [h]
  · rw [h]
    exact (by rw [show GenOutput.result _ = generate_with_dalle env.dalleApi prompt from rfl, hd])

/-- Claim C5, witness: at a concrete oracle with DALL·E succeeding, the
no-identity high-quality request falls through Segmind and Getimg and
returns DALL·E's URL. -/
theorem C5_witness :
    (¬ (100:ℚ) - 0 < RATE_LIMIT_SECONDS) ∧
    (generate_with_dalle envDalleOk.dalleApi "p"
        = Except.ok ("https://img.example/a.png".data)) ∧
    ((∀ (senv : SegmindEnv) (p : String), (generate_with_segmind senv p none).1 = none) ∧
     (∀ (genv : GetimgEnv) (p : String), generate_with_getimg genv p none = none) ∧
     (generate_image_from_prompt envDalleOk (fun _ => 0) 100 "p" none "u" true).attempts
         = [Provider.segmind, Provider.getimg, Provider.dalle] ∧
     (generate_image_from_prompt envDalleOk (fun _ => 0) 100 "p" none "u" true).result
         = Except.ok ("https://img.example/a.png".data)) := by
  have hrate : ¬ (100:ℚ) - 0 < RATE_LIMIT_SECONDS := by norm_num [RATE_LIMIT_SECONDS]
  exact ⟨hrate, by decide,
    C5_precondition_fallthrough envDalleOk (fun _ => 0) 100 "p" "u" hrate
      ("https://img.example/a.png".data) (by decide)⟩

/-! Claims C6, C8 and C10. -/

/-- Claim C6: in `generate_with_segmind`, a non-success HTTP status takes
the provider-error path (the Failure of the spec's outcome taxonomy:
the status/body error log is emitted, no "no image" log), while a success
status whose body has no usable image field takes the no-result path (the
"no image" log is emitted, no provider-error log); in the source both
paths return `None` to the router — per spec §3 the two outcomes are
distinguished by their logging, which the embedded log trace captures.
The third conjunct completes the trichotomy: a success status with a
usable image field yields the Success outcome (the data URI) and emits
neither of the two failure-class logs. -/
theorem C6_segmind_failure_vs_noresult (senv : SegmindEnv) (prompt : String)
    (i : Option PyStr) (hkey : pyTruthy senv.key = true) (hid : pyTruthy i = true)
    (face : String) (hface : senv.fetchFace = Except.ok face)
    (resp : SegmindResp) (hpost : senv.post = Except.ok resp) :
    (resp.status_code ≠ 200 →
      (generate_with_segmind senv prompt i).1 = none ∧
      SegLog.httpError resp.status_code (resp.text.take 400)
          ∈ (generate_with_segmind senv prompt i).2 ∧
      SegLog.noImage ∉ (generate_with_segmind senv prompt i).2) ∧
    (∀ data, resp.status_code = 200 → resp.json = Except.ok data →
      pyTruthy (segmind_pick_image data) = false →
      (generate_with_segmind senv prompt i).1 = none ∧
      SegLog.noImage ∈ (generate_with_segmind senv prompt i).2 ∧
      ∀ c b, SegLog.httpError c b ∉ (generate_with_segmind senv prompt i).2) ∧
    (∀ data img, resp.status_code = 200 → resp.json = Except.ok data →
      segmind_pick_image data = some img → img.isEmpty = false →
      (generate_with_segmind senv prompt i).1
          = some ("data:image/png;base64,".data ++ img) ∧
      SegLog.noImage ∉ (generate_with_segmind senv prompt i).2 ∧
      ∀ c b, SegLog.httpError c b ∉ (generate_with_segmind senv prompt i).2) := by
  refine ⟨?_, ?_, ?_⟩
  · intro hs
    refine ⟨?_, ?_, ?_⟩ <;>
      simp [generate_with_segmind, hkey, hid, hface, hpost, hs]
  · intro data hs hjson hpick
    cases hpk : segmind_pick_image data with
    | none =>
      refine ⟨?_, ?_, fun c b => ?_⟩ <;>
        simp [generate_with_segmind, hkey, hid, hface, hpost, hs, hjson, hpk]
    | some img =>
      have hempty : img.isEmpty = true := by
        rw [hpk] at hpick
        simpa [pyTruthy] using hpick
      refine ⟨?_, ?_, fun c b => ?_⟩ <;>
        simp [generate_with_segmind, hkey, hid, hface, hpost, hs, hjson, hpk, hempty]
  · intro data img hs hjson hpk hne
    refine ⟨?_, ?_, fun c b => ?_⟩ <;>
      simp [generate_with_segmind, hkey, hid, hface, hpost, hs, hjson, hpk, hne]

/-- Claim C6, witness: the theorem applied to a concrete HTTP-500 oracle
(provider-error path), to a concrete HTTP-200 oracle whose body has no
image field (no-result path), and to a concrete HTTP-200 oracle with an
image (success path). -/
theorem C6_witness :
    ((generate_with_segmind seg500 "p" (some ("https://f.example/i.png".data))).1 = none ∧
     SegLog.httpError 500 ("boom".take 400)
         ∈ (generate_with_segmind seg500 "p" (some ("https://f.example/i.png".data))).2 ∧
     SegLog.noImage ∉ (generate_with_segmind seg500 "p" (some ("https://f.example/i.png".data))).2) ∧
    ((generate_with_segmind seg200NoImage "p" (some ("https://f.example/i.png".data))).1 = none ∧
     SegLog.noImage ∈ (generate_with_segmind seg200NoImage "p" (some ("https://f.example/i.png".data))).2 ∧
     ∀ c b, SegLog.httpError c b
         ∉ (generate_with_segmind seg200NoImage "p" (some ("https://f.example/i.png".data))).2) ∧
    ((generate_with_segmind envSegOk.segmind "p" (some ("https://f.example/i.png".data))).1
         = some ("data:image/png;base64,".data ++ "SU1H".data) ∧
     SegLog.noImage ∉ (generate_with_segmind envSegOk.segmind "p" (some ("https://f.example/i.png".data))).2 ∧
     ∀ c b, SegLog.httpError c b
         ∉ (generate_with_segmind envSegOk.segmind "p" (some ("https://f.example/i.png".data))).2) := by
  refine ⟨?_, ?_, ?_⟩
  · exact (C6_segmind_failure_vs_noresult seg500 "p" (some ("https://f.example/i.png".data))
      (by decide) (by decide) "ZmFjZQ==" rfl
      { status_code := 500, text := "boom", json := Except.error "no json" } rfl).1
      (by decide)
  · exact (C6_segmind_failure_vs_noresult seg200NoImage "p" (some ("https://f.example/i.png".data))
      (by decide) (by decide) "ZmFjZQ==" rfl
      { status_code := 200, text := "ok", json := Except.ok { image := none, images := none } }
      rfl).2.1
      { image := none, images := none } rfl rfl (by decide)
  · exact (C6_segmind_failure_vs_noresult envSegOk.segmind "p"
      (some ("https://f.example/i.png".data))
      (by decide) (by decide) "ZmFjZQ==" rfl
      { status_code := 200, text := "ok"
      , json := Except.ok { image := some ("SU1H".data), images := none } } rfl).2.2
      { image := some ("SU1H".data), images := none } ("SU1H".data) rfl (by decide) (by decide)
      (by decide)

/-- Claim C8: the rate-limit gate of `generate_image_from_prompt` (lines
61–66 of the source).  When `now - last[user] < 10` the call fails with the
rate-limit error carrying the truncated remaining wait
`⌊window − elapsed⌋` (the source's `int(...)`), attempts no provider and
leaves the timestamp map untouched; otherwise the map is updated at exactly
the caller's key — shared state is mutated on success only. -/
theorem C8_rate_limiter_frame (env : Env) (st : String → ℚ) (now : ℚ)
    (prompt : String) (i : Option PyStr) (u : String) (hq : Bool) :
    (now - st u < RATE_LIMIT_SECONDS →
      (generate_image_from_prompt env st now prompt i u hq).result
          = Except.error (PyError.runtimeError
              (rate_limit_message ⌊RATE_LIMIT_SECONDS - (now - st u)⌋)) ∧
      (generate_image_from_prompt env st now prompt i u hq).attempts = [] ∧
      (generate_image_from_prompt env st now prompt i u hq).state = st) ∧
    (¬ now - st u < RATE_LIMIT_SECONDS →
      (generate_image_from_prompt env st now prompt i u hq).state u = now ∧
      ∀ v, v ≠ u → (generate_image_from_prompt env st now prompt i u hq).state v = st v) := by
  constructor
  · intro h
    rw [gen_ratelimited env st now prompt i u hq h]
    exact ⟨rfl, rfl, rfl⟩
  · intro h
    rw [state_after_pass env st now prompt i u hq h]
    exact ⟨by simp, fun v hv => by simp [hv]⟩

/-- Claim C8, witness: a call at t=5 against a last-request time of 0 is
rejected with a 5-second wait, no attempts, and an unchanged map. -/
theorem C8_witness :
    ((5:ℚ) - 0 < RATE_LIMIT_SECONDS) ∧
    ((generate_image_from_prompt envDalleOk (fun _ => 0) 5 "p" none "u" false).result
        = Except.error (PyError.runtimeError
            (rate_limit_message ⌊RATE_LIMIT_SECONDS - ((5:ℚ) - 0)⌋)) ∧
     (generate_image_from_prompt envDalleOk (fun _ => 0) 5 "p" none "u" false).attempts = [] ∧
     (generate_image_from_prompt envDalleOk (fun _ => 0) 5 "p" none "u" false).state
        = fun _ => (0:ℚ)) := by
  have h : (5:ℚ) - 0 < RATE_LIMIT_SECONDS := by norm_num [RATE_LIMIT_SECONDS]
  exact ⟨h, (C8_rate_limiter_frame envDalleOk (fun _ => 0) 5 "p" none "u" false).1 h⟩

/-- Claim C10: once a call passes the rate-limit check, the requester's
last-request timestamp is set to the call's time, the update does not
depend on the provider oracle (so it is in place before any provider is
attempted and persists when every provider fails), other requesters' times
are untouched, and a follow-up call for the same requester within the
10-second window is rejected with no provider attempts. -/
theorem C10_cooldown_persists (env env' env₂ : Env) (st : String → ℚ) (now t : ℚ)
    (p p₂ : String) (i i₂ : Option PyStr) (u : String) (hq hq₂ : Bool)
    (hrate : ¬ now - st u < RATE_LIMIT_SECONDS)
    (hnext : t - now < RATE_LIMIT_SECONDS) :
    (generate_image_from_prompt env st now p i u hq).state u = now ∧
    (∀ v, v ≠ u → (generate_image_from_prompt env st now p i u hq).state v = st v) ∧
    (generate_image_from_prompt env' st now p i u hq).state
        = (generate_image_from_prompt env st now p i u hq).state ∧
    (generate_image_from_prompt env₂
        (generate_image_from_prompt env st now p i u hq).state t p₂ i₂ u hq₂).attempts
      = [] ∧
    (generate_image_from_prompt env₂
        (generate_image_from_prompt env st now p i u hq).state t p₂ i₂ u hq₂).result
      = Except.error (PyError.runtimeError
          (rate_limit_message ⌊RATE_LIMIT_SECONDS - (t - now)⌋)) := by
  have hst := state_after_pass env st now p i u hq hrate
  have hst' := state_after_pass env' st now p i u hq hrate
  have hsu : (generate_image_from_prompt env st now p i u hq).state u = now := by
    rw [hst]; simp
  have hnext' : t - (generate_image_from_prompt env st now p i u hq).state u
      < RATE_LIMIT_SECONDS := by rw [hsu]; exact hnext
  refine ⟨hsu, fun v hv => by rw [hst]; simp [hv], by rw [hst, hst'], ?_, ?_⟩
  · rw [gen_ratelimited env₂ _ t p₂ i₂ u hq₂ hnext']
  · rw [gen_ratelimited env₂ _ t p₂ i₂ u hq₂ hnext', hsu]

/-- Claim C10, witness: an accepted call at t=100 against an all-failing
oracle still stamps the requester's cooldown, identically to a succeeding
oracle, and a follow-up at t=105 is rejected with a 5-second wait. -/
theorem C10_witness :
    (¬ (100:ℚ) - 0 < RATE_LIMIT_SECONDS) ∧
    ((105:ℚ) - 100 < RATE_LIMIT_SECONDS) ∧
    ((generate_image_from_prompt envAllFail (fun _ => 0) 100 "p" none "u" false).state "u"
        = 100 ∧
     (∀ v, v ≠ "u" →
       (generate_image_from_prompt envAllFail (fun _ => 0) 100 "p" none "u" false).state v
         = (fun _ => (0:ℚ)) v) ∧
     (generate_image_from_prompt envDalleOk (fun _ => 0) 100 "p" none "u" false).state
        = (generate_image_from_prompt envAllFail (fun _ => 0) 100 "p" none "u" false).state ∧
     (generate_image_from_prompt envAllFail
        (generate_image_from_prompt envAllFail (fun _ => 0) 100 "p" none "u" false).state
        105 "p" none "u" false).attempts = [] ∧
     (generate_image_from_prompt envAllFail
        (generate_image_from_prompt envAllFail (fun _ => 0) 100 "p" none "u" false).state
        105 "p" none "u" false).result
       = Except.error (PyError.runtimeError
           (rate_limit_message ⌊RATE_LIMIT_SECONDS - ((105:ℚ) - 100)⌋))) := by
  have a₀ : ¬ (100:ℚ) - 0 < RATE_LIMIT_SECONDS := by norm_num [RATE_LIMIT_SECONDS]
  have a₁ : (105:ℚ) - 100 < RATE_LIMIT_SECONDS := by norm_num [RATE_LIMIT_SECONDS]
  exact ⟨a₀, a₁, C10_cooldown_persists envAllFail envDalleOk envAllFail (fun _ => 0)
    100 105 "p" "p" none none "u" false false a₀ a₁⟩
